import Mathlib

set_option maxHeartbeats 1000000

/-!
Shallow embedding of the Hunyuan3D Blender add-on (src/main.py).

The embedding covers the job-submission core:
  - `invoke` (Hunyuan3DOperator.invoke): input snapshot, validation, mesh
    capture, image-path resolution, status message, worker launch;
  - `generate_model` (the background worker): request construction
    (`buildRequest`), the HTTP call, the status check, the scheduling of the
    deferred import handler, and the try/except/finally cleanup semantics,
    recorded as an event trace;
  - `import_handler`: the deferred host-thread action that imports the asset
    and performs the non-destructive mesh replace;
  - `modal`: the host polling loop's handling of the finished flag.

The filesystem and the HTTP service are modelled as an explicit environment
(`Env`, `InvokeEnv`). Binary blobs and base64 strings are modelled as
`String`; float-valued properties are modelled as `Rat` (no arithmetic is
ever performed on them, only copying and comparison).
-/

inductive ObjType
  | MESH
  | OTHER
deriving DecidableEq, Repr, BEq

structure Vec3 where
  x : Rat
  y : Rat
  z : Rat
deriving DecidableEq, Repr

/-- A scene object as far as this add-on touches it: its type, transform,
visibility flags, and whether it has been deleted. -/
structure BlenderObject where
  objType : ObjType
  location : Vec3
  rotation_euler : Vec3
  scale : Vec3
  hide_viewport : Bool
  hide_render : Bool
  deleted : Bool
deriving DecidableEq, Repr

/-- The `Hunyuan3DProperties` property group (`scene.gen_3d_props`). -/
structure GenProps where
  prompt : String
  api_url : String
  is_processing : Bool
  job_id : String
  status_message : String
  image_path : String
  octree_resolution : Int
  num_inference_steps : Int
  guidance_scale : Rat
  texture : Bool
deriving DecidableEq, Repr

/-- The mutable fields of `Hunyuan3DOperator` (the per-job state attached to
the operator instance). -/
structure OperatorState where
  prompt : String
  api_url : String
  image_path : String
  octree_resolution : Int
  num_inference_steps : Int
  guidance_scale : Rat
  texture : Bool
  selected_mesh_base64 : String
  selected_mesh : Option BlenderObject
  task_finished : Bool
deriving DecidableEq, Repr

/-- Class-level defaults of `Hunyuan3DOperator`. -/
def initialOperatorState : OperatorState :=
  { prompt := "", api_url := "", image_path := "", octree_resolution := 256,
    num_inference_steps := 20, guidance_scale := 5.5, texture := false,
    selected_mesh_base64 := "", selected_mesh := none, task_finished := false }

/-- The JSON body POSTed to `{base_url}/generate`. `none` models a key that is
omitted from the JSON object entirely; the params fields are always present. -/
structure Payload where
  text : Option String
  image : Option String
  mesh : Option String
  octree_resolution : Int
  num_inference_steps : Int
  guidance_scale : Rat
  texture : Bool
deriving DecidableEq, Repr

structure HttpResponse where
  status : Int
  text : String
  content : String
deriving DecidableEq, Repr

/-- Environment of the background worker: filesystem oracle, the base64 of the
bytes of the file at a path, and the HTTP service (an `Except.error` models a
transport-level exception raised by `requests.post`). -/
structure Env where
  fileExists : String → Bool
  fileB64 : String → String
  http : Payload → Except String HttpResponse

/-- Request construction, lines 163-223 of src/main.py: the four payload
shapes, selected by the same nested branching as the source; the raised
exception for a non-existent image path is returned as `Except.error` with
the exception's message. -/
def buildRequest (env : Env) (st : OperatorState) : Except String Payload :=
  if st.selected_mesh_base64 ≠ "" ∧ st.texture = true then
    if st.image_path ≠ "" ∧ env.fileExists st.image_path = true then
      Except.ok { text := none, image := some (env.fileB64 st.image_path),
                  mesh := some st.selected_mesh_base64,
                  octree_resolution := st.octree_resolution,
                  num_inference_steps := st.num_inference_steps,
                  guidance_scale := st.guidance_scale, texture := st.texture }
    else
      Except.ok { text := some st.prompt, image := none,
                  mesh := some st.selected_mesh_base64,
                  octree_resolution := st.octree_resolution,
                  num_inference_steps := st.num_inference_steps,
                  guidance_scale := st.guidance_scale, texture := st.texture }
  else
    if st.image_path ≠ "" then
      if env.fileExists st.image_path = true then
        Except.ok { text := none, image := some (env.fileB64 st.image_path),
                    mesh := none,
                    octree_resolution := st.octree_resolution,
                    num_inference_steps := st.num_inference_steps,
                    guidance_scale := st.guidance_scale, texture := st.texture }
      else
        Except.error ("Image path does not exist " ++ st.image_path)
    else
      Except.ok { text := some st.prompt, image := none, mesh := none,
                  octree_resolution := st.octree_resolution,
                  num_inference_steps := st.num_inference_steps,
                  guidance_scale := st.guidance_scale, texture := st.texture }

/-- Observable actions of the background worker, in program order. -/
inductive Event
  | postRequest (p : Payload)
  | setTaskFinished
  | clearBusy
  | reportError (msg : String)
  | scheduleHandoff (assetBytes : String)
  | clearMeshSnapshot
deriving DecidableEq, Repr

/-- The try/except part of `generate_model` (lines 162-255): returns the event
trace of the body together with the error report (from the except clause or
the status check) and the scheduled handoff payload, if any. -/
def workerBody (env : Env) (st : OperatorState) :
    List Event × Option String × Option String :=
  match buildRequest env st with
  | Except.error e =>
      ([Event.reportError ("Error: " ++ e)], some ("Error: " ++ e), none)
  | Except.ok p =>
      match env.http p with
      | Except.error e =>
          ([Event.postRequest p, Event.reportError ("Error: " ++ e)],
           some ("Error: " ++ e), none)
      | Except.ok resp =>
          if resp.status = 200 then
            ([Event.postRequest p, Event.setTaskFinished, Event.clearBusy,
              Event.scheduleHandoff resp.content],
             none, some resp.content)
          else
            ([Event.postRequest p, Event.setTaskFinished, Event.clearBusy,
              Event.reportError ("Generation failed: " ++ resp.text)],
             some ("Generation failed: " ++ resp.text), none)

/-- Final observable state of one run of the background worker. -/
structure WorkerOutcome where
  trace : List Event
  task_finished : Bool
  is_processing : Bool
  selected_mesh_base64 : String
  errorReport : Option String
  handoff : Option String
deriving Repr

/-- `Hunyuan3DOperator.generate_model` (lines 158-261): runs the body, then
the finally block (lines 257-261) unconditionally sets the finished flag,
clears the busy flag and clears the mesh-bytes snapshot. -/
def generate_model (env : Env) (st : OperatorState) : WorkerOutcome :=
  let b := workerBody env st
  { trace := b.1 ++ [Event.setTaskFinished, Event.clearBusy, Event.clearMeshSnapshot],
    task_finished := true, is_processing := false, selected_mesh_base64 := "",
    errorReport := b.2.1, handoff := b.2.2 }

def isOutcomeEvent : Event → Bool
  | Event.reportError _ => true
  | Event.scheduleHandoff _ => true
  | _ => false

/-- True when some `setTaskFinished` event occurs strictly before some event
that records the job's outcome (an error report or the handoff scheduling). -/
def hasFinishedBeforeOutcome : List Event → Bool
  | [] => false
  | Event.setTaskFinished :: rest => rest.any isOutcomeEvent || hasFinishedBeforeOutcome rest
  | _ :: rest => hasFinishedBeforeOutcome rest

def isPostEvent : Event → Bool
  | Event.postRequest _ => true
  | _ => false

/-- True when the worker actually sent an HTTP request. -/
def requestWasSent (tr : List Event) : Bool := tr.any isPostEvent

/-- Environment of `invoke`: the current selection, the base64 of the glTF
export of the selection, and the directory of the .blend file. -/
structure InvokeEnv where
  selected_objects : List BlenderObject
  exportedMeshB64 : String
  blend_file_dir : String

/-- Python `str.startswith`, computed on the character list (kernel-reducible,
unlike the byte-indexed `String.startsWith`). -/
def strStartsWith (s p : String) : Bool :=
  decide (s.data.take p.data.length = p.data)

/-- Python `str.endswith`, computed on the character list. -/
def strEndsWith (s p : String) : Bool :=
  decide (s.data.reverse.take p.data.length = p.data.reverse)

/-- Python `s[n:]`, computed on the character list. -/
def strDrop (s : String) (n : Nat) : String := String.mk (s.data.drop n)

/-- `os.path.join` restricted to the cases the add-on can reach. -/
def joinPath (d p : String) : String :=
  if strStartsWith p "/" then p
  else if d = "" then p
  else if strEndsWith d "/" then d ++ p
  else d ++ "/" ++ p

/-- Lines 138-140 of src/main.py: only a path starting with the Blender
relative prefix `//` is rewritten; every other path is used as is. -/
def resolveImagePath (blend_dir path : String) : String :=
  if strStartsWith path "//" then joinPath blend_dir (strDrop path 2) else path

def isAbsolutePath (s : String) : Bool := strStartsWith s "/"

/-- Lines 117-130: remember the first selected MESH object (keeping any value
left from an earlier run when nothing is selected), and if a mesh is
remembered, export it and store its base64 snapshot. -/
def captureMesh (env : InvokeEnv) (st : OperatorState) : OperatorState :=
  let st1 := match env.selected_objects.find? (fun o => o.objType == ObjType.MESH) with
    | some o => { st with selected_mesh := some o }
    | none => st
  if st1.selected_mesh.isSome then { st1 with selected_mesh_base64 := env.exportedMeshB64 }
  else st1

/-- Lines 142-149: the status message fixed at submission time. -/
def statusFor (st : OperatorState) : String :=
  if st.selected_mesh.isSome ∧ st.texture = true then
    "Texturing Selected Mesh...\nThis may take several minutes depending \n on your GPU power."
  else
    let mesh_type := if st.texture then "Textured Mesh" else "White Mesh"
    let prompt_type := if st.prompt ≠ "" then "Text Prompt" else "Image"
    "Generating " ++ mesh_type ++ " with " ++ prompt_type ++
      "...\nThis may take several minutes depending \n on your GPU power."

/-- Lines 104-110: copy the property-group values onto the operator. -/
def copyProps (props : GenProps) (st : OperatorState) : OperatorState :=
  { st with
    prompt := props.prompt,
    api_url := props.api_url,
    image_path := props.image_path,
    octree_resolution := props.octree_resolution,
    num_inference_steps := props.num_inference_steps,
    guidance_scale := props.guidance_scale,
    texture := props.texture }

/-- Result of `invoke`: either the rejection path, which reports a warning and
returns FINISHED without starting a thread, or RUNNING_MODAL with the worker
thread started on the final operator state. -/
inductive InvokeResult
  | finished (warning : String) (props : GenProps) (st : OperatorState)
  | runningModal (props : GenProps) (st : OperatorState)
deriving Repr

/-- `Hunyuan3DOperator.invoke` (lines 101-156): snapshot the properties,
validate (prompt or image non-empty), capture the selected mesh, set the busy
flag, resolve the image path, fix the status message, and launch the worker. -/
def invoke (env : InvokeEnv) (props : GenProps) (st0 : OperatorState) : InvokeResult :=
  let st1 := copyProps props st0
  if st1.prompt = "" ∧ st1.image_path = "" then
    InvokeResult.finished "Please enter some text or select an image first." props st1
  else
    let st2 := captureMesh env st1
    let st3 := { st2 with image_path := resolveImagePath env.blend_file_dir st2.image_path }
    let props1 := { props with is_processing := true, status_message := statusFor st3 }
    InvokeResult.runningModal props1 st3

def launchesWorker : InvokeResult → Bool
  | InvokeResult.runningModal _ _ => true
  | InvokeResult.finished _ _ _ => false

def invokeRejected : InvokeResult → Bool
  | InvokeResult.finished _ _ _ => true
  | InvokeResult.runningModal _ _ => false

def resultProps : InvokeResult → GenProps
  | InvokeResult.finished _ p _ => p
  | InvokeResult.runningModal p _ => p

def resultState : InvokeResult → OperatorState
  | InvokeResult.finished _ _ s => s
  | InvokeResult.runningModal _ s => s

/-- Line 283 of src/main.py: the panel enables the submit button only while no
job is processing; this is the only single-flight guard in the add-on. -/
def panelSubmitEnabled (props : GenProps) : Bool := !props.is_processing

inductive ModalResult
  | cancelled
  | passThrough
deriving DecidableEq, Repr

/-- `Hunyuan3DOperator.modal` (lines 89-99), the host polling loop tick:
returns the modal result, the new finished flag, and the new properties. -/
def modal (cancelEvent : Bool) (task_finished : Bool) (props : GenProps) :
    ModalResult × Bool × GenProps :=
  if cancelEvent then (ModalResult.cancelled, task_finished, props)
  else if task_finished then
    (ModalResult.passThrough, false, { props with is_processing := false })
  else (ModalResult.passThrough, task_finished, props)

/-- Input of the deferred import handler: the selection after the glTF import,
the remembered source mesh, and the texture flag. -/
structure HandlerInput where
  selected_objects : List BlenderObject
  source : Option BlenderObject
  texture : Bool
deriving Repr

/-- Result of the deferred import handler: the final state of the imported
object and of the source object, the timer return value (`none` means the
timer is not rescheduled), and whether the temp file was removed. -/
structure HandlerResult where
  new_obj : Option BlenderObject
  source : Option BlenderObject
  timerReturn : Option Nat
  tempFileDeleted : Bool
deriving Repr

/-- The `import_handler` closure (lines 237-250): import, delete the temp
file, pick the first selected object if any, and only when a new object, a
remembered source mesh and the texture flag are all present, copy the source
transform onto the new object and hide the source in viewport and render;
always return `None`. -/
def import_handler (inp : HandlerInput) : HandlerResult :=
  let new_obj := inp.selected_objects.head?
  match new_obj, inp.source with
  | some n, some s =>
      if inp.texture then
        { new_obj := some { n with
            location := s.location,
            rotation_euler := s.rotation_euler,
            scale := s.scale },
          source := some { s with hide_viewport := true, hide_render := true },
          timerReturn := none, tempFileDeleted := true }
      else
        { new_obj := new_obj, source := inp.source,
          timerReturn := none, tempFileDeleted := true }
  | _, _ =>
      { new_obj := new_obj, source := inp.source,
        timerReturn := none, tempFileDeleted := true }

/-! Concrete fixtures used by witnesses and counterexamples. -/

def v3zero : Vec3 := { x := 0, y := 0, z := 0 }

def meshObjA : BlenderObject :=
  { objType := ObjType.MESH, location := { x := 1, y := 2, z := 3 },
    rotation_euler := v3zero, scale := { x := 1, y := 1, z := 1 },
    hide_viewport := false, hide_render := false, deleted := false }

def newObjB : BlenderObject :=
  { objType := ObjType.MESH, location := v3zero,
    rotation_euler := v3zero, scale := { x := 2, y := 2, z := 2 },
    hide_viewport := false, hide_render := false, deleted := false }

def env0 : InvokeEnv :=
  { selected_objects := [], exportedMeshB64 := "", blend_file_dir := "/home/user/proj" }

def envMeshSel : InvokeEnv :=
  { selected_objects := [meshObjA], exportedMeshB64 := "TUVTSA==",
    blend_file_dir := "/home/user/proj" }

def props_base : GenProps :=
  { prompt := "", api_url := "http://localhost:8080", is_processing := false,
    job_id := "", status_message := "", image_path := "",
    octree_resolution := 256, num_inference_steps := 20,
    guidance_scale := 5.5, texture := false }

def props_busy : GenProps := { props_base with prompt := "a red chair", is_processing := true }

def props_rel : GenProps := { props_base with prompt := "x", image_path := "textures/cat.png" }

def props_slash : GenProps := { props_base with prompt := "x", image_path := "//tex/cat.png" }

def stText : OperatorState := { initialOperatorState with prompt := "a red chair" }

def stMissingImg : OperatorState := { initialOperatorState with image_path := "/tmp/missing.png" }

def pText : Payload :=
  { text := some "a red chair", image := none, mesh := none,
    octree_resolution := 256, num_inference_steps := 20,
    guidance_scale := 5.5, texture := false }

def envOk (resp : HttpResponse) : Env :=
  { fileExists := fun _ => false, fileB64 := fun _ => "",
    http := fun _ => Except.ok resp }

def envNoFs : Env :=
  { fileExists := fun _ => false, fileB64 := fun _ => "",
    http := fun _ => Except.error "connection refused" }

def resp500 : HttpResponse := { status := 500, text := "OOM", content := "" }

def resp201 : HttpResponse := { status := 201, text := "created", content := "asset-bytes" }

def resp200 : HttpResponse := { status := 200, text := "", content := "GLBDATA" }

def inpReplace : HandlerInput :=
  { selected_objects := [newObjB], source := some meshObjA, texture := true }

def inpNoSelection : HandlerInput :=
  { selected_objects := [], source := some meshObjA, texture := true }

/-! Theorems. -/

/-- Claim C2 (confirmed): on every exit path of the background worker (HTTP
success, non-2xx failure, raised exception, unexpected fault) the finally
block makes the job terminal (task_finished true, is_processing false) and
clears the transient mesh-bytes snapshot, unconditionally; the job is never
left permanently Running. -/
theorem c2_guaranteed_cleanup (env : Env) (st : OperatorState) :
    (generate_model env st).task_finished = true ∧
    (generate_model env st).is_processing = false ∧
    (generate_model env st).selected_mesh_base64 = "" :=
  ⟨rfl, rfl, rfl⟩

/-- Claim C5 (confirmed): whenever the request builder produces a payload, it
is exactly one of the four shapes of the source's precedence: the mesh key is
present iff the mesh+texture branch applies, the image key is present iff the
image path is non-empty and the file exists, the text key is present iff the
image key is absent, and the four params fields are always present with the
submitted values; absent keys are omitted (`none`). -/
theorem c5_payload_shapes (env : Env) (st : OperatorState) (p : Payload)
    (h : buildRequest env st = Except.ok p) :
    (p.mesh = if st.selected_mesh_base64 ≠ "" ∧ st.texture = true then
        some st.selected_mesh_base64 else none) ∧
    (p.image = if st.image_path ≠ "" ∧ env.fileExists st.image_path = true then
        some (env.fileB64 st.image_path) else none) ∧
    (p.text = if st.image_path ≠ "" ∧ env.fileExists st.image_path = true then
        none else some st.prompt) ∧
    p.octree_resolution = st.octree_resolution ∧
    p.num_inference_steps = st.num_inference_steps ∧
    p.guidance_scale = st.guidance_scale ∧
    p.texture = st.texture := by
  by_cases h1 : st.selected_mesh_base64 ≠ "" ∧ st.texture = true
  · by_cases h2 : st.image_path ≠ "" ∧ env.fileExists st.image_path = true
    · rw [buildRequest, if_pos h1, if_pos h2] at h
      injection h with h; subst h
      simp [h1, h2]
    · rw [buildRequest, if_pos h1, if_neg h2] at h
      injection h with h; subst h
      simp [h1, h2]
  · by_cases h3 : st.image_path ≠ ""
    · by_cases h4 : env.fileExists st.image_path = true
      · rw [buildRequest, if_neg h1, if_pos h3, if_pos h4] at h
        injection h with h; subst h
        simp [h1, h3, h4]
      · rw [buildRequest, if_neg h1, if_pos h3, if_neg h4] at h
        exact absurd h (by simp)
    · rw [buildRequest, if_neg h1, if_neg h3] at h
      injection h with h; subst h
      have h3' : st.image_path = "" := not_not.mp h3
      simp [h1, h3']

/-- Claim C5 witness: the spec's text-only scenario (prompt "a red chair",
empty image path, octree 256, steps 20, guidance 5.5, texture false) yields
exactly the text payload with no image or mesh keys. -/
theorem c5_payload_shapes_witness :
    (pText.mesh = if stText.selected_mesh_base64 ≠ "" ∧ stText.texture = true then
        some stText.selected_mesh_base64 else none) ∧
    (pText.image = if stText.image_path ≠ "" ∧ envNoFs.fileExists stText.image_path = true then
        some (envNoFs.fileB64 stText.image_path) else none) ∧
    (pText.text = if stText.image_path ≠ "" ∧ envNoFs.fileExists stText.image_path = true then
        none else some stText.prompt) ∧
    pText.octree_resolution = stText.octree_resolution ∧
    pText.num_inference_steps = stText.num_inference_steps ∧
    pText.guidance_scale = stText.guidance_scale ∧
    pText.texture = stText.texture :=
  c5_payload_shapes envNoFs stText pText rfl

/-- Claim C7 (confirmed): when the mesh+texture branch does not apply, the
image path is non-empty and the file does not exist, the request builder
fails with the missing-image error, no request is sent, and the worker ends
terminal with that error recorded. -/
theorem c7_missing_image (env : Env) (st : OperatorState)
    (h1 : st.selected_mesh_base64 = "" ∨ st.texture = false)
    (h2 : st.image_path ≠ "")
    (h3 : env.fileExists st.image_path = false) :
    buildRequest env st = Except.error ("Image path does not exist " ++ st.image_path) ∧
    requestWasSent (generate_model env st).trace = false ∧
    (generate_model env st).errorReport =
      some ("Error: " ++ ("Image path does not exist " ++ st.image_path)) ∧
    (generate_model env st).task_finished = true ∧
    (generate_model env st).is_processing = false := by
  have hn1 : ¬ (st.selected_mesh_base64 ≠ "" ∧ st.texture = true) := by
    rcases h1 with h | h <;> simp [h]
  have hn4 : ¬ (env.fileExists st.image_path = true) := by simp [h3]
  have hb : buildRequest env st =
      Except.error ("Image path does not exist " ++ st.image_path) := by
    rw [buildRequest, if_neg hn1, if_pos h2, if_neg hn4]
  refine ⟨hb, ?_, ?_, rfl, rfl⟩
  · simp [generate_model, workerBody, hb, requestWasSent, isPostEvent]
  · simp [generate_model, workerBody, hb]

/-- Claim C7 witness: a submission with no mesh snapshot and image path
"/tmp/missing.png" on an empty filesystem. -/
theorem c7_missing_image_witness :
    buildRequest envNoFs stMissingImg =
      Except.error ("Image path does not exist " ++ stMissingImg.image_path) ∧
    requestWasSent (generate_model envNoFs stMissingImg).trace = false ∧
    (generate_model envNoFs stMissingImg).errorReport =
      some ("Error: " ++ ("Image path does not exist " ++ stMissingImg.image_path)) ∧
    (generate_model envNoFs stMissingImg).task_finished = true ∧
    (generate_model envNoFs stMissingImg).is_processing = false :=
  c7_missing_image envNoFs stMissingImg (Or.inl rfl) (by decide) rfl

/-- Claim C4 counterexample: on a failing response (HTTP 500 "OOM") the
worker's trace contains a `setTaskFinished` strictly before the error is
recorded, so the host can observe the finished flag before errorMessage is
populated — refuting the claimed terminal-state ordering. -/
theorem c4_finish_order_counterexample :
    hasFinishedBeforeOutcome (generate_model (envOk resp500) stText).trace = true := by
  decide

/-- Claim C4 amended: after the HTTP call returns, the worker first sets the
finished flag and clears the busy flag (lines 225-227), then checks the
status and records the error or schedules the handoff, and the finally block
repeats the terminal writes; the handoff registration does come after a
terminal-flag write, but the flag is observable before the outcome events. -/
theorem c4_finish_order_amended (env : Env) (st : OperatorState) (p : Payload)
    (resp : HttpResponse)
    (hb : buildRequest env st = Except.ok p) (hh : env.http p = Except.ok resp) :
    (generate_model env st).trace =
      [Event.postRequest p, Event.setTaskFinished, Event.clearBusy] ++
      (if resp.status = 200 then [Event.scheduleHandoff resp.content]
       else [Event.reportError ("Generation failed: " ++ resp.text)]) ++
      [Event.setTaskFinished, Event.clearBusy, Event.clearMeshSnapshot] := by
  by_cases hs : resp.status = 200 <;>
    simp [generate_model, workerBody, hb, hh, hs]

/-- Claim C4 amended witness: the HTTP 500 "OOM" run. -/
theorem c4_finish_order_amended_witness :
    (generate_model (envOk resp500) stText).trace =
      [Event.postRequest pText, Event.setTaskFinished, Event.clearBusy] ++
      (if resp500.status = 200 then [Event.scheduleHandoff resp500.content]
       else [Event.reportError ("Generation failed: " ++ resp500.text)]) ++
      [Event.setTaskFinished, Event.clearBusy, Event.clearMeshSnapshot] :=
  c4_finish_order_amended (envOk resp500) stText pText resp500 rfl rfl

/-- Claim C6 counterexample: HTTP 201 is a 2xx response, yet the worker takes
the failure branch (the code tests `status_code != 200`, not non-2xx): the
error report is set and no handoff is scheduled. -/
theorem c6_two_xx_counterexample :
    (200 ≤ resp201.status ∧ resp201.status < 300) ∧
    (generate_model (envOk resp201) stText).errorReport =
      some ("Generation failed: " ++ resp201.text) ∧
    (generate_model (envOk resp201) stText).handoff = none := by
  decide

/-- Claim C6 amended: the success check is exactly `status = 200`; on any
other status (2xx included) the worker records "Generation failed: " followed
by the response body text verbatim and schedules no handoff; on 200 it
schedules the handoff with the response bytes; the busy flag clears either
way. -/
theorem c6_status_check_amended (env : Env) (st : OperatorState) (p : Payload)
    (resp : HttpResponse)
    (hb : buildRequest env st = Except.ok p) (hh : env.http p = Except.ok resp) :
    (generate_model env st).is_processing = false ∧
    (resp.status = 200 →
      (generate_model env st).errorReport = none ∧
      (generate_model env st).handoff = some resp.content) ∧
    (resp.status ≠ 200 →
      (generate_model env st).errorReport =
        some ("Generation failed: " ++ resp.text) ∧
      (generate_model env st).handoff = none) := by
  refine ⟨rfl, ?_, ?_⟩ <;> intro hs <;>
    simp [generate_model, workerBody, hb, hh, hs]

/-- Claim C6 amended witness: the HTTP 500 "OOM" run. -/
theorem c6_status_check_amended_witness :
    (generate_model (envOk resp500) stText).is_processing = false ∧
    (resp500.status = 200 →
      (generate_model (envOk resp500) stText).errorReport = none ∧
      (generate_model (envOk resp500) stText).handoff = some resp500.content) ∧
    (resp500.status ≠ 200 →
      (generate_model (envOk resp500) stText).errorReport =
        some ("Generation failed: " ++ resp500.text) ∧
      (generate_model (envOk resp500) stText).handoff = none) :=
  c6_status_check_amended (envOk resp500) stText pText resp500 rfl rfl

lemma captureMesh_image_path (env : InvokeEnv) (st : OperatorState) :
    (captureMesh env st).image_path = st.image_path := by
  unfold captureMesh
  cases h : env.selected_objects.find? (fun o => o.objType == ObjType.MESH) with
  | none =>
    simp only [h]
    split <;> rfl
  | some o =>
    simp only [h]
    split <;> rfl

/-- Claim C1 counterexample: with the busy flag set (a job Running), `invoke`
still launches a new background worker instead of failing with
AlreadyRunning — the operator performs no single-flight check. -/
theorem c1_no_operator_guard_counterexample :
    props_busy.is_processing = true ∧
    launchesWorker (invoke env0 props_busy initialOperatorState) = true := by
  decide

/-- Claim C1 amended: the only single-flight guard is in the UI — the panel
disables the submit button while is_processing is true; `invoke` itself never
reads the busy flag, and launches a worker exactly when the prompt or the
image path is non-empty, regardless of the job state. -/
theorem c1_ui_only_guard (env : InvokeEnv) (props : GenProps) (st : OperatorState) :
    panelSubmitEnabled props = !props.is_processing ∧
    launchesWorker (invoke env props st) =
      !(decide (props.prompt = "" ∧ props.image_path = "")) := by
  refine ⟨rfl, ?_⟩
  by_cases h : props.prompt = "" ∧ props.image_path = "" <;>
    simp [invoke, copyProps, launchesWorker, h]

/-- Claim C1 amended witness: the busy submission with a non-empty prompt. -/
theorem c1_ui_only_guard_witness :
    panelSubmitEnabled props_busy = !props_busy.is_processing ∧
    launchesWorker (invoke env0 props_busy initialOperatorState) =
      !(decide (props_busy.prompt = "" ∧ props_busy.image_path = "")) :=
  c1_ui_only_guard env0 props_busy initialOperatorState

/-- Claim C3 counterexample: a submission with empty prompt, empty image path
but a selected source mesh is rejected (the prompt/image check at line 112
runs before the mesh is ever captured), refuting the claimed acceptance of
mesh-only submissions. -/
theorem c3_mesh_only_rejected_counterexample :
    (envMeshSel.selected_objects.any fun o => o.objType == ObjType.MESH) = true ∧
    props_base.prompt = "" ∧ props_base.image_path = "" ∧
    invokeRejected (invoke envMeshSel props_base initialOperatorState) = true ∧
    launchesWorker (invoke envMeshSel props_base initialOperatorState) = false := by
  decide

/-- Claim C3 amended: `invoke` rejects a submission (with a warning, launching
no worker) if and only if prompt and imagePath are both empty — the selected
mesh plays no role in validation; otherwise a worker is always launched. -/
theorem c3_validation_amended (env : InvokeEnv) (props : GenProps) (st : OperatorState) :
    invokeRejected (invoke env props st) =
      decide (props.prompt = "" ∧ props.image_path = "") ∧
    launchesWorker (invoke env props st) =
      !(invokeRejected (invoke env props st)) := by
  by_cases h : props.prompt = "" ∧ props.image_path = "" <;>
    simp [invoke, copyProps, invokeRejected, launchesWorker, h]

/-- Claim C9 counterexample: a relative image path without the Blender `//`
prefix is left untouched by `invoke` — it is not made absolute even though
the blend-file directory is known. -/
theorem c9_relative_path_counterexample :
    props_rel.image_path ≠ "" ∧
    (resultState (invoke env0 props_rel initialOperatorState)).image_path =
      "textures/cat.png" ∧
    isAbsolutePath
      (resultState (invoke env0 props_rel initialOperatorState)).image_path = false := by
  decide

/-- Claim C9 amended: only an image path starting with the Blender relative
prefix `//` is rewritten (prefix stripped, joined to the blend-file
directory); every other path — absolute or relative — is used exactly as
supplied. -/
theorem c9_prefix_only_resolution (env : InvokeEnv) (props : GenProps) (st : OperatorState) :
    (strStartsWith props.image_path "//" = false →
      (resultState (invoke env props st)).image_path = props.image_path) ∧
    (strStartsWith props.image_path "//" = true →
      (resultState (invoke env props st)).image_path =
        joinPath env.blend_file_dir (strDrop props.image_path 2)) := by
  constructor <;> intro hs
  · by_cases h : props.prompt = "" ∧ props.image_path = ""
    · simp [invoke, copyProps, resultState, h]
    · simp [invoke, resultState, h, resolveImagePath, captureMesh_image_path,
        copyProps, hs]
  · by_cases h : props.prompt = "" ∧ props.image_path = ""
    · exfalso
      rw [h.2] at hs
      exact absurd hs (by decide)
    · simp [invoke, resultState, h, resolveImagePath, captureMesh_image_path,
        copyProps, hs]

/-- Claim C9 amended witness: a `//`-prefixed path is joined to the blend-file
directory. -/
theorem c9_prefix_only_resolution_witness :
    strStartsWith props_slash.image_path "//" = true ∧
    (resultState (invoke env0 props_slash initialOperatorState)).image_path =
      joinPath env0.blend_file_dir (strDrop props_slash.image_path 2) :=
  ⟨by decide, (c9_prefix_only_resolution env0 props_slash initialOperatorState).2 (by decide)⟩

/-- Claim C8 (confirmed): on a successful mesh-replace handoff (a newly
imported object is selected, a source mesh was captured, texture was
requested), the handler copies the source's location, rotation and scale onto
the new object and sets the source hidden in viewport and render, changing no
other field of the source (in particular it is not deleted), and does not
reschedule itself. -/
theorem c8_mesh_replace (inp : HandlerInput) (n s : BlenderObject)
    (h1 : inp.selected_objects.head? = some n)
    (h2 : inp.source = some s)
    (h3 : inp.texture = true) :
    (import_handler inp).new_obj =
      some { n with location := s.location, rotation_euler := s.rotation_euler, scale := s.scale } ∧
    (import_handler inp).source =
      some { s with hide_viewport := true, hide_render := true } ∧
    (import_handler inp).timerReturn = none := by
  simp [import_handler, h1, h2, h3]

/-- Claim C8 witness: a concrete replace of `meshObjA` by `newObjB`. -/
theorem c8_mesh_replace_witness :
    (import_handler inpReplace).new_obj =
      some { newObjB with location := meshObjA.location, rotation_euler := meshObjA.rotation_euler, scale := meshObjA.scale } ∧
    (import_handler inpReplace).source =
      some { meshObjA with hide_viewport := true, hide_render := true } ∧
    (import_handler inpReplace).timerReturn = none :=
  c8_mesh_replace inpReplace newObjB meshObjA rfl rfl rfl

/-- Claim C10 (confirmed): at its edge cases — nothing selected after import,
no captured source mesh, or texture not requested — the handler skips the
placement-and-hide step entirely (source untouched, new object only guarded
head of the selection, no out-of-bounds access) and returns `none`, so the
timer runs exactly once and does not reschedule. -/
theorem c10_handler_edge_cases (inp : HandlerInput)
    (h : inp.selected_objects = [] ∨ inp.source = none ∨ inp.texture = false) :
    (import_handler inp).new_obj = inp.selected_objects.head? ∧
    (import_handler inp).source = inp.source ∧
    (import_handler inp).timerReturn = none := by
  cases hx : inp.selected_objects.head? with
  | none => simp [import_handler, hx]
  | some n =>
    cases hsrc : inp.source with
    | none => simp [import_handler, hx, hsrc]
    | some s =>
      have ht : inp.texture = false := by
        rcases h with h | h | h
        · rw [h] at hx
          simp at hx
        · rw [h] at hsrc
          exact absurd hsrc (by simp)
        · exact h
      simp [import_handler, hx, hsrc, ht]

/-- Claim C10 witness: the empty-selection edge case. -/
theorem c10_handler_edge_cases_witness :
    (import_handler inpNoSelection).new_obj = inpNoSelection.selected_objects.head? ∧
    (import_handler inpNoSelection).source = inpNoSelection.source ∧
    (import_handler inpNoSelection).timerReturn = none :=
  c10_handler_edge_cases inpNoSelection (Or.inl rfl)
